import Mathlib

/-!
# Verification of the Graffiti Wall realtime core (`src/main.py`)

Shallow embedding of the realtime synchronization subsystem of the
Graffiti Wall backend: the `ConnectionManager` (connection registry and
fan-out broadcaster) and the `websocket_endpoint` session protocol
handler.

Modelling conventions:
* A `Session` (a `WebSocket` object in the source) is modelled as a `Nat`
  identifier.  In Python, `websocket in active`, `active.remove(websocket)`
  and `connection is sender` all compare by object identity for these
  objects, modelled as equality of identifiers.
* The registry `self.active` is a Python `list`, modelled as `List Session`
  (ordered, duplicates possible, `remove` deletes the first occurrence).
* `await connection.send_text(message)` either succeeds or raises; the
  environment's choice is modelled by a function `sendOk : Session → Bool`
  (the message text itself does not influence control flow in the source).
* Numeric JSON values (`size`, coordinates) are modelled as `Rat`; the
  claims under study concern control flow and comparisons, not
  floating-point rounding.
-/

abbrev Session := Nat

namespace ConnectionManager

/-- Registry add, `async def connect(self, websocket)` (src/main.py:100-102): accepts the
socket and appends it to `self.active`.  Python `list.append` adds at the
end unconditionally (no set semantics). -/
def connect (active : List Session) (ws : Session) : List Session :=
  active ++ [ws]

/-- Registry remove, `def disconnect(self, websocket)` (src/main.py:104-106):
`if websocket in self.active: self.active.remove(websocket)`.
Python `list.remove` deletes the first occurrence; guarded by membership so
an absent session is a no-op. -/
def disconnect (active : List Session) (ws : Session) : List Session :=
  if ws ∈ active then active.erase ws else active

/-- Observable trace of one `broadcast` call: the sessions to which a
`send_text` was attempted, in iteration order, and the `dead` list collected
from failed sends, in iteration order. -/
structure BroadcastTrace where
  attempts : List Session
  dead : List Session
  deriving Repr, DecidableEq

/-- The `for connection in self.active` loop of
`async def broadcast(self, message, sender=None)` (src/main.py:108-116):
skip `connection` when `sender is not None and connection is sender`;
otherwise attempt the send, and on exception append `connection` to `dead`. -/
def sendLoop (sendOk : Session → Bool) (sender : Option Session) :
    List Session → BroadcastTrace
  | [] => ⟨[], []⟩
  | connection :: rest =>
    if some connection = sender then
      sendLoop sendOk sender rest
    else
      let t := sendLoop sendOk sender rest
      ⟨connection :: t.attempts,
       if sendOk connection then t.dead else connection :: t.dead⟩

/-- Full result of one `broadcast` call: the trace plus the registry
contents after the trailing `for d in dead: self.disconnect(d)` loop
(src/main.py:117-118). -/
structure BroadcastResult where
  attempts : List Session
  dead : List Session
  active : List Session
  deriving Repr, DecidableEq

/-- Fan-out, `async def broadcast(self, message, sender=None)` (src/main.py:108-118),
sequential semantics (no interleaved tasks): run the send loop over the
registry, then remove each collected dead session. -/
def broadcast (active : List Session) (sender : Option Session)
    (sendOk : Session → Bool) : BroadcastResult :=
  let t := sendLoop sendOk sender active
  ⟨t.attempts, t.dead, t.dead.foldl disconnect active⟩

end ConnectionManager

/-! ## Stroke validation (`class StrokeModel`, src/main.py:22-26)

`StrokeModel(**payload.get("stroke", {}))` constructs a pydantic model:
`points : List[List[float]]` is required; `color : str` defaults to
`"#ff0055"`; `size : float` defaults to `8` and must satisfy
`ge=1, le=100`; `user : Optional[str]` defaults to `None`.  Construction
raises a `ValidationError` (caught at src/main.py:144) when a required
field is missing, a supplied value cannot be coerced to the declared
type, or the `size` bound is violated. -/

/-- The `"stroke"` member of an inbound JSON object, as seen by the
`StrokeModel(**...)` call.  Each field is `some v` when the JSON object
supplies a value coercible to the declared type, `none` when the field is
absent; `coercionOk = false` records that some supplied field's value could
not be coerced (which makes construction raise regardless of the rest). -/
structure StrokePayload where
  points : Option (List (List Rat))
  color : Option String
  size : Option Rat
  user : Option String
  coercionOk : Bool
  deriving Repr, DecidableEq

/-- A successfully constructed `StrokeModel` value: defaults filled in,
`size` within `[1, 100]` enforced by the `Field` bounds. -/
structure StrokeModel where
  points : List (List Rat)
  color : String
  size : Rat
  user : Option String
  deriving Repr, DecidableEq

/-- Pydantic construction `StrokeModel(**payload.get("stroke", \x7b\x7d))` (src/main.py:143):
`none` models a raised `ValidationError`, `some m` a constructed model.
Fails when a field value is uncoercible, when the required `points` is
missing, or when `size` (defaulted to 8) violates `ge=1, le=100`. -/
def validateStroke (p : StrokePayload) : Option StrokeModel :=
  if ¬ p.coercionOk then none
  else
    match p.points with
    | none => none
    | some pts =>
      let size := p.size.getD 8
      if 1 ≤ size ∧ size ≤ 100 then
        some ⟨pts, p.color.getD "#ff0055", size, p.user⟩
      else none

/-! ## Session protocol handler (`websocket_endpoint`, src/main.py:124-158) -/

/-- Outcome of `payload = json.loads(data)` followed by the uses of
`payload` for one inbound text frame:
* `badJson`: `json.loads` raises (caught at src/main.py:139 → `continue`);
* `nonObject`: `json.loads` yields a JSON value that is not an object
  (number, string, array, boolean or null), so `payload.get("type")`
  at src/main.py:141 raises `AttributeError` — which no enclosing handler
  catches;
* `obj mtype stroke`: an object; `mtype` is `payload.get("type")`
  restricted to its string reading (`payload.get("type") == "stroke"` is
  the only use), and `stroke` is the reading of `payload.get("stroke", {})`
  (a missing or non-object `"stroke"` member behaves as the all-`none`
  payload: `StrokeModel(**...)` then raises, caught at src/main.py:144). -/
inductive Recv where
  | badJson
  | nonObject
  | obj (mtype : Option String) (stroke : StrokePayload)
  deriving Repr, DecidableEq

/-- One environment event delivered to the `while True` receive loop.
`recv r persist` is a text frame received by `websocket.receive_text()`;
`persist` is the outcome the store would give to the
`create_document("stroke", ...)` call at src/main.py:148 for this frame
(`some id` success, `none` a raised exception), consulted only if the
frame reaches the persistence step.  `disconnectSignal` is
`websocket.receive_text()` raising `WebSocketDisconnect`. -/
inductive SessionEvent where
  | recv (r : Recv) (persist : Option String)
  | disconnectSignal
  deriving Repr, DecidableEq

/-- The wire envelope built at src/main.py:152-155:
`{"type": "stroke", "stroke": {**stroke.model_dump(), "id": sid}}` with
`sid = none` when persistence failed (src/main.py:149-150). -/
structure Envelope where
  etype : String
  stroke : StrokeModel
  id : Option String
  deriving Repr, DecidableEq

/-- An observable output of the handler: the `init` frame sent to the
joining socket (src/main.py:133; the snapshot entries are kept abstract as
serialized records), or a call to `manager.broadcast(message, sender)`
(src/main.py:156) with the envelope and the excluded sender. -/
inductive Output where
  | initOut (strokes : List String)
  | broadcastOut (env : Envelope) (sender : Session)
  deriving Repr, DecidableEq

/-- How the handler coroutine ended:
* `closedRemoved`: `WebSocketDisconnect` was caught and
  `manager.disconnect(websocket)` ran (src/main.py:157-158);
* `crashed`: an exception other than `WebSocketDisconnect` escaped the
  handler — `manager.disconnect` did **not** run;
* `running`: the supplied event trace is exhausted with the loop still
  waiting for the next frame. -/
inductive EndState where
  | closedRemoved
  | crashed
  | running
  deriving Repr, DecidableEq

/-- Processing of one received frame by the loop body (src/main.py:137-156):
`none` models an uncaught exception (session crash); `some none` models
`continue` with no broadcast (discard); `some (some env)` models reaching
the broadcast call with envelope `env`. -/
def stepJoined (r : Recv) (persist : Option String) :
    Option (Option Envelope) :=
  match r with
  | .badJson => some none
  | .nonObject => none
  | .obj mtype p =>
    if mtype = some "stroke" then
      match validateStroke p with
      | none => some none
      | some stroke => some (some ⟨"stroke", stroke, persist⟩)
    else some none

/-- Result of running the handler on an event trace. -/
structure RunResult where
  outputs : List Output
  final : EndState
  deriving Repr, DecidableEq

/-- The `while True` receive loop (src/main.py:135-156) driven by an event
trace, together with the `except WebSocketDisconnect` epilogue
(src/main.py:157-158).  `self` is this session, passed as `sender=websocket`
to every broadcast. -/
def runLoop (self : Session) : List SessionEvent → RunResult
  | [] => ⟨[], .running⟩
  | .disconnectSignal :: _ => ⟨[], .closedRemoved⟩
  | .recv r persist :: rest =>
    match stepJoined r persist with
    | none => ⟨[], .crashed⟩
    | some none => runLoop self rest
    | some (some env) =>
      let k := runLoop self rest
      ⟨.broadcastOut env self :: k.outputs, k.final⟩

/-- Handler entry, `async def websocket_endpoint(websocket)` (src/main.py:124-158) after
`manager.connect`: fetch the snapshot (`fetch = none` models
`list_strokes()` raising at src/main.py:130, recovered to `[]` at
src/main.py:132), send the single `init` frame, then run the receive
loop. -/
def websocket_endpoint (self : Session) (fetch : Option (List String))
    (events : List SessionEvent) : RunResult :=
  let initial := fetch.getD []
  let k := runLoop self events
  ⟨.initOut initial :: k.outputs, k.final⟩

/-! ## Live-list iteration under concurrent mutation (src/main.py:110)

The broadcast loop `for connection in self.active` iterates the registry
list itself, not a copy.  A CPython list iterator keeps a cursor index
into the live list and fetches `active[i]` at each step.  Under asyncio,
while `await connection.send_text(...)` is suspended, other session tasks
may run and call `manager.disconnect`, mutating `self.active` in place;
removing an element at a position at or before the cursor shifts later
elements down, so the resumed iterator skips one of them. -/

/-- Index-cursor iteration of the broadcast loop with interference:
`sched i` names the session some other task disconnects while the send to
the element at cursor index `i` is in flight (`none`: no interference).
All sends succeed here, so no session is collected as dead.  Returns the
sequence of sessions actually sent to and the registry contents when the
iterator is exhausted.  `fuel` bounds the recursion and is chosen at least
the initial list length plus one at every use. -/
def liveIter (sched : Nat → Option Session) :
    Nat → Nat → List Session → List Session × List Session
  | 0, _, l => ([], l)
  | fuel + 1, i, l =>
    match l[i]? with
    | none => ([], l)
    | some c =>
      let l2 := match sched i with
        | some d => ConnectionManager.disconnect l d
        | none => l
      let r := liveIter sched fuel (i + 1) l2
      (c :: r.1, r.2)

/-! ## Helper lemmas about the broadcaster -/

namespace ConnectionManager

theorem disconnect_of_not_mem (l : List Session) (s : Session) (h : s ∉ l) :
    disconnect l s = l := by
  simp [disconnect, h]

theorem disconnect_eq_erase (l : List Session) (s : Session) :
    disconnect l s = l.erase s := by
  unfold disconnect
  split
  · rfl
  · exact (List.erase_of_not_mem (by assumption)).symm

theorem sendLoop_attempts (ok : Session → Bool) (sender : Option Session)
    (l : List Session) :
    (sendLoop ok sender l).attempts
      = l.filter (fun c => !decide (some c = sender)) := by
  induction l with
  | nil => rfl
  | cons c rest ih =>
    by_cases h : some c = sender <;>
      simp [sendLoop, h, List.filter_cons, ih]

theorem sendLoop_dead (ok : Session → Bool) (sender : Option Session)
    (l : List Session) :
    (sendLoop ok sender l).dead
      = l.filter (fun c => !decide (some c = sender) && !ok c) := by
  induction l with
  | nil => rfl
  | cons c rest ih =>
    by_cases h : some c = sender
    · simp [sendLoop, h, List.filter_cons, ih]
    · by_cases hk : ok c <;>
        simp [sendLoop, h, hk, List.filter_cons, ih]

theorem foldl_disconnect_eq_filter (ds : List Session) (l : List Session)
    (h : l.Nodup) :
    ds.foldl disconnect l = l.filter (fun c => decide (c ∉ ds)) := by
  induction ds generalizing l with
  | nil => simp
  | cons d ds ih =>
    have herase : disconnect l d = l.filter (fun c => decide (c ≠ d)) := by
      rw [disconnect_eq_erase, h.erase_eq_filter]
      exact List.filter_congr fun c _ => by by_cases h1 : c = d <;> simp [h1]
    rw [List.foldl_cons, herase, ih _ (h.filter _), List.filter_filter]
    refine List.filter_congr (fun c _ => ?_)
    by_cases h1 : c = d <;> by_cases h2 : c ∈ ds <;>
      simp [h1, h2]

end ConnectionManager

/-! ## Claim theorems about the registry and broadcaster -/

/-- C4: for every call to `broadcast(message, sender)` with a non-null
sender, no delivery of the message is ever attempted to the sender session,
even when the sender is present in the registry. -/
theorem broadcast_never_attempts_sender
    (active : List Session) (ok : Session → Bool) (s : Session) :
    s ∉ (ConnectionManager.broadcast active (some s) ok).attempts := by
  show s ∉ (ConnectionManager.sendLoop ok (some s) active).attempts
  rw [ConnectionManager.sendLoop_attempts]
  simp [List.mem_filter]

/-- C2: for every broadcast over a registry without duplicate entries,
every registered session other than the excluded sender gets exactly one
send attempt, and the attempted sequence does not depend on which sends
fail — a failure on one session never suppresses an attempt on another. -/
theorem broadcast_attempts_every_other_session
    (active : List Session) (sender : Option Session) (ok : Session → Bool)
    (hnd : active.Nodup) (s : Session) (hs : s ∈ active)
    (hsk : some s ≠ sender) :
    (ConnectionManager.broadcast active sender ok).attempts.count s = 1 ∧
    ∀ ok2 : Session → Bool,
      (ConnectionManager.broadcast active sender ok2).attempts
        = (ConnectionManager.broadcast active sender ok).attempts := by
  constructor
  · show (ConnectionManager.sendLoop ok sender active).attempts.count s = 1
    rw [ConnectionManager.sendLoop_attempts]
    exact List.count_eq_one_of_mem (hnd.filter _)
      (by simp [List.mem_filter, hs, hsk])
  · intro ok2
    show (ConnectionManager.sendLoop ok2 sender active).attempts
      = (ConnectionManager.sendLoop ok sender active).attempts
    rw [ConnectionManager.sendLoop_attempts, ConnectionManager.sendLoop_attempts]

/-- C2 witness: registry `[1, 2, 3]`, sender `1`, all sends to `2` fail —
session `3` is still attempted exactly once. -/
theorem broadcast_attempts_every_other_session_witness :
    ([1, 2, 3] : List Session).Nodup ∧ (3 : Session) ∈ ([1, 2, 3] : List Session) ∧
    some (3 : Session) ≠ some 1 ∧
    (ConnectionManager.broadcast [1, 2, 3] (some 1)
        (fun c => !decide (c = 2))).attempts.count 3 = 1 :=
  ⟨by decide, by decide, by decide,
    (broadcast_attempts_every_other_session [1, 2, 3] (some 1)
      (fun c => !decide (c = 2)) (by decide) 3 (by decide) (by decide)).1⟩

/-- C3: over a duplicate-free registry, every entry other than the sender
is visited by the send loop (computed from the registry as it was before
any removal), the dead list collects exactly the visited entries whose send
failed, and the registry after the call is the registry before the call
with exactly the failed entries removed — in particular it is unchanged
when every delivery succeeds. -/
theorem broadcast_removes_exactly_failed
    (active : List Session) (sender : Option Session) (ok : Session → Bool)
    (hnd : active.Nodup) :
    (ConnectionManager.broadcast active sender ok).attempts
      = active.filter (fun c => !decide (some c = sender)) ∧
    (ConnectionManager.broadcast active sender ok).dead
      = active.filter (fun c => !decide (some c = sender) && !ok c) ∧
    (ConnectionManager.broadcast active sender ok).active
      = active.filter (fun c => decide (some c = sender) || ok c) := by
  refine ⟨ConnectionManager.sendLoop_attempts ok sender active,
          ConnectionManager.sendLoop_dead ok sender active, ?_⟩
  show (ConnectionManager.sendLoop ok sender active).dead.foldl
      ConnectionManager.disconnect active = _
  rw [ConnectionManager.sendLoop_dead,
    ConnectionManager.foldl_disconnect_eq_filter _ _ hnd]
  refine List.filter_congr fun c hc => ?_
  by_cases h1 : some c = sender <;> by_cases h2 : ok c <;>
    simp [h1, h2, List.mem_filter, hc]

/-- C3 witness: registry `[1, 2, 3]`, sender `1`, send to `2` fails —
afterwards the registry is `[1, 3]`, i.e. the original minus exactly the
failed session. -/
theorem broadcast_removes_exactly_failed_witness :
    ([1, 2, 3] : List Session).Nodup ∧
    (ConnectionManager.broadcast [1, 2, 3] (some 1)
        (fun c => !decide (c = 2))).active
      = [1, 3] :=
  ⟨by decide,
    (broadcast_removes_exactly_failed [1, 2, 3] (some 1)
      (fun c => !decide (c = 2)) (by decide)).2.2.trans (by decide)⟩

/-- C8 counterexample: on the registry `[0, 0]` (the session `0` holds two
entries, as produced by two `connect` calls), removing `0` twice yields
`[]` while removing it once yields `[0]` — double removal is not the same
as single removal on every registry state. -/
theorem remove_twice_differs :
    ConnectionManager.disconnect (ConnectionManager.disconnect [0, 0] 0) 0
      ≠ ConnectionManager.disconnect [0, 0] 0 := by decide

/-- C8 (amended): removing an absent session is a no-op; on a registry
holding at most one entry for `s`, removing `s` twice equals removing it
once; and in every case one `remove` call changes the number of entries
for `s` by at most one. -/
theorem remove_props (reg : List Session) (s : Session) :
    (s ∉ reg → ConnectionManager.disconnect reg s = reg) ∧
    (reg.count s ≤ 1 →
      ConnectionManager.disconnect (ConnectionManager.disconnect reg s) s
        = ConnectionManager.disconnect reg s) ∧
    reg.count s ≤ (ConnectionManager.disconnect reg s).count s + 1 ∧
    (ConnectionManager.disconnect reg s).count s ≤ reg.count s := by
  refine ⟨ConnectionManager.disconnect_of_not_mem reg s, fun h => ?_, ?_, ?_⟩
  · by_cases hm : s ∈ reg
    · have h1 : reg.count s = 1 :=
        Nat.le_antisymm h (List.count_pos_iff.mpr hm)
      have h0 : (ConnectionManager.disconnect reg s).count s = 0 := by
        rw [ConnectionManager.disconnect_eq_erase, List.count_erase_self, h1]
      have habs : s ∉ ConnectionManager.disconnect reg s := by
        intro hmem
        have := List.count_pos_iff.mpr hmem
        omega
      exact ConnectionManager.disconnect_of_not_mem _ _ habs
    · rw [ConnectionManager.disconnect_of_not_mem _ _ hm,
        ConnectionManager.disconnect_of_not_mem _ _ hm]
  · rw [ConnectionManager.disconnect_eq_erase, List.count_erase_self]
    omega
  · rw [ConnectionManager.disconnect_eq_erase, List.count_erase_self]
    omega

/-- C8 witness: removing the absent session `1` from `[5]` is a no-op, and
on `[3, 5]` (one entry for `3`) removing `3` twice equals removing it
once. -/
theorem remove_props_witness :
    ConnectionManager.disconnect [5] 1 = [5] ∧
    ConnectionManager.disconnect (ConnectionManager.disconnect [3, 5] 3) 3
      = ConnectionManager.disconnect [3, 5] 3 :=
  ⟨(remove_props [5] 1).1 (by decide), (remove_props [3, 5] 3).2.1 (by decide)⟩

/-- C10: registry add is list append, not set insertion — two `connect`
calls for the same session `s` add two entries, a broadcast sent by a
different session `t` then attempts delivery to `s` once per entry (two
attempts), and a single `disconnect` removes only one of the two
entries. -/
theorem connect_twice_duplicates
    (reg : List Session) (s t : Session) (ok : Session → Bool) (hst : s ≠ t) :
    (ConnectionManager.connect (ConnectionManager.connect reg s) s).count s
      = reg.count s + 2 ∧
    (ConnectionManager.broadcast
        (ConnectionManager.connect (ConnectionManager.connect reg s) s)
        (some t) ok).attempts.count s = reg.count s + 2 ∧
    (ConnectionManager.disconnect
        (ConnectionManager.connect (ConnectionManager.connect reg s) s) s).count s
      = reg.count s + 1 := by
  have hcount :
      (ConnectionManager.connect (ConnectionManager.connect reg s) s).count s
        = reg.count s + 2 := by
    simp [ConnectionManager.connect]
  refine ⟨hcount, ?_, ?_⟩
  · show (ConnectionManager.sendLoop ok (some t)
        (ConnectionManager.connect (ConnectionManager.connect reg s) s)).attempts.count s
      = reg.count s + 2
    rw [ConnectionManager.sendLoop_attempts,
      List.count_filter (by simp [hst]), hcount]
  · rw [ConnectionManager.disconnect_eq_erase, List.count_erase_self, hcount]
    omega

/-- C10 witness: from the empty registry, connecting session `7` twice
leaves two entries, a broadcast from sender `1` attempts `7` twice, and one
`disconnect` leaves one entry. -/
theorem connect_twice_duplicates_witness :
    (7 : Session) ≠ 1 ∧
    (ConnectionManager.connect (ConnectionManager.connect [] 7) 7).count 7 = 2 ∧
    (ConnectionManager.broadcast
        (ConnectionManager.connect (ConnectionManager.connect [] 7) 7)
        (some 1) (fun _ => true)).attempts.count 7 = 2 ∧
    (ConnectionManager.disconnect
        (ConnectionManager.connect (ConnectionManager.connect [] 7) 7) 7).count 7
      = 1 := by
  have h := connect_twice_duplicates [] 7 1 (fun _ => true) (by decide)
  exact ⟨by decide, h.1, h.2.1, h.2.2⟩

/-! ## Claim theorems about the session protocol handler -/

/-- Events whose processing raises an exception that no handler catches
(a frame whose JSON value is not an object, src/main.py:141). -/
def crashes : SessionEvent → Bool
  | .recv .nonObject _ => true
  | _ => false

theorem runLoop_ends_removed (self : Session) (post pre : List SessionEvent)
    (h : ∀ e ∈ pre, crashes e = false) :
    (runLoop self (pre ++ SessionEvent.disconnectSignal :: post)).final
      = EndState.closedRemoved := by
  induction pre with
  | nil => rfl
  | cons e pre ih =>
    have hpre : ∀ x ∈ pre, crashes x = false :=
      fun x hx => h x (List.mem_cons_of_mem _ hx)
    have hr := h e (List.mem_cons_self _ _)
    cases e with
    | disconnectSignal => rfl
    | recv r persist =>
      cases r with
      | badJson => simpa [runLoop, stepJoined] using ih hpre
      | nonObject => simp [crashes] at hr
      | obj mtype p =>
        by_cases hm : mtype = some "stroke"
        · cases hval : validateStroke p with
          | none => simpa [runLoop, stepJoined, hm, hval] using ih hpre
          | some st => simpa [runLoop, stepJoined, hm, hval] using ih hpre
        · simpa [runLoop, stepJoined, hm] using ih hpre

/-- C6: whenever a joined session's connection ends by the disconnect
signal (`WebSocketDisconnect`, the exception by which the framework
reports that the connection is gone), after any sequence of frames none
of which crashes the handler, the handler reaches the
`except WebSocketDisconnect` epilogue and invokes registry remove; on a
duplicate-free registry the session is then no longer a member.  The
failure ends only this session's loop — no other session's state appears
in the handler. -/
theorem session_end_invokes_registry_remove
    (self : Session) (fetch : Option (List String))
    (pre post : List SessionEvent) (h : ∀ e ∈ pre, crashes e = false)
    (reg : List Session) (hreg : reg.Nodup) :
    (websocket_endpoint self fetch
        (pre ++ SessionEvent.disconnectSignal :: post)).final
      = EndState.closedRemoved ∧
    self ∉ ConnectionManager.disconnect reg self := by
  refine ⟨runLoop_ends_removed self post pre h, ?_⟩
  rw [ConnectionManager.disconnect_eq_erase]
  intro hmem
  exact ((List.Nodup.mem_erase_iff hreg).mp hmem).1 rfl

/-- C6 witness: a session that sends one well-formed stroke frame and then
disconnects ends in the removed state, and is gone from the registry
`[0, 4]`. -/
theorem session_end_invokes_registry_remove_witness :
    (websocket_endpoint 0 (some [])
        ([SessionEvent.recv (.obj (some "stroke")
            ⟨some [[0, 0]], none, none, none, true⟩) (some "a")]
          ++ SessionEvent.disconnectSignal :: [])).final
      = EndState.closedRemoved ∧
    (0 : Session) ∉ ConnectionManager.disconnect [0, 4] 0 :=
  session_end_invokes_registry_remove 0 (some [])
    [SessionEvent.recv (.obj (some "stroke")
        ⟨some [[0, 0]], none, none, none, true⟩) (some "a")]
    [] (by decide) [0, 4] (by decide)

/-- Output frames of `init` type. -/
def isInit : Output → Bool
  | .initOut _ => true
  | .broadcastOut _ _ => false

theorem runLoop_no_init (self : Session) (events : List SessionEvent) :
    ((runLoop self events).outputs.countP isInit) = 0 := by
  induction events with
  | nil => rfl
  | cons e rest ih =>
    cases e with
    | disconnectSignal => rfl
    | recv r persist =>
      cases r with
      | badJson => simpa [runLoop, stepJoined] using ih
      | nonObject => rfl
      | obj mtype p =>
        by_cases hm : mtype = some "stroke"
        · cases hval : validateStroke p with
          | none => simpa [runLoop, stepJoined, hm, hval] using ih
          | some st =>
            simp [runLoop, stepJoined, hm, hval, List.countP_cons, isInit, ih]
        · simpa [runLoop, stepJoined, hm] using ih

/-- C7: when the snapshot fetch raises, the handler still completes the
join handshake: it sends exactly one `init` frame, that frame carries the
empty strokes sequence, and the receive loop then runs exactly as it would
otherwise — the join never fails because of the read error. -/
theorem snapshot_failure_sends_empty_init
    (self : Session) (events : List SessionEvent) :
    (websocket_endpoint self none events).outputs
      = Output.initOut [] :: (runLoop self events).outputs ∧
    (websocket_endpoint self none events).final
      = (runLoop self events).final ∧
    ((websocket_endpoint self none events).outputs.countP isInit) = 1 := by
  refine ⟨rfl, rfl, ?_⟩
  show ((Output.initOut [] :: (runLoop self events).outputs).countP isInit) = 1
  rw [List.countP_cons]
  simp [isInit, runLoop_no_init]

/-- C1: for a valid inbound stroke frame whose Stroke Store `append`
raises, the handler still builds the `"stroke"` envelope with the full
validated stroke fields and `id = none`, hands it to the broadcaster with
the submitting session excluded (`sender = self`), and the receive loop
then processes the remaining events exactly as before — further
submissions are still accepted. -/
theorem append_failure_still_broadcasts
    (self : Session) (fetch : Option (List String)) (p : StrokePayload)
    (st : StrokeModel) (hv : validateStroke p = some st)
    (rest : List SessionEvent) :
    (websocket_endpoint self fetch
        (SessionEvent.recv (.obj (some "stroke") p) none :: rest)).outputs
      = Output.initOut (fetch.getD [])
          :: Output.broadcastOut ⟨"stroke", st, none⟩ self
          :: (runLoop self rest).outputs ∧
    (websocket_endpoint self fetch
        (SessionEvent.recv (.obj (some "stroke") p) none :: rest)).final
      = (runLoop self rest).final := by
  constructor <;> simp [websocket_endpoint, runLoop, stepJoined, hv]

/-- C1 witness: a concrete valid stroke whose persistence fails is
broadcast with a null id and a following frame is still processed (a
second broadcast follows). -/
theorem append_failure_still_broadcasts_witness :
    validateStroke ⟨some [[0, 0], [1, 1]], none, none, none, true⟩
      = some ⟨[[0, 0], [1, 1]], "#ff0055", 8, none⟩ ∧
    (websocket_endpoint 7 (some ["r1"])
        [SessionEvent.recv
          (.obj (some "stroke") ⟨some [[0, 0], [1, 1]], none, none, none, true⟩) none,
         SessionEvent.recv
          (.obj (some "stroke") ⟨some [[2, 2]], none, none, none, true⟩) (some "id9")]).outputs
      = [Output.initOut ["r1"],
         Output.broadcastOut ⟨"stroke", ⟨[[0, 0], [1, 1]], "#ff0055", 8, none⟩, none⟩ 7,
         Output.broadcastOut ⟨"stroke", ⟨[[2, 2]], "#ff0055", 8, none⟩, some "id9"⟩ 7] := by
  have hv : validateStroke ⟨some [[0, 0], [1, 1]], none, none, none, true⟩
      = some ⟨[[0, 0], [1, 1]], "#ff0055", 8, none⟩ := by decide
  refine ⟨hv, ?_⟩
  rw [(append_failure_still_broadcasts 7 (some ["r1"]) _ _ hv
    [SessionEvent.recv
      (.obj (some "stroke") ⟨some [[2, 2]], none, none, none, true⟩) (some "id9")]).1]
  decide

/-- C5 (code bug): a frame that fails JSON parsing and a frame whose
stroke violates the size bound (`size = 500`) are discarded with the loop
still running and nothing broadcast; but a frame holding a JSON value
that is not an object (e.g. the text `42`) makes `payload.get("type")`
raise `AttributeError`, which no handler catches — the session terminates
(without reaching the registry remove of the `WebSocketDisconnect`
epilogue) and a later valid submission is never processed, contradicting
the claim that such input never terminates the session. -/
theorem nonobject_frame_crashes_session :
    (websocket_endpoint 0 (some [])
        [SessionEvent.recv .badJson none,
         SessionEvent.recv
          (.obj (some "stroke") ⟨some [[0, 0]], none, some 500, none, true⟩) (some "a"),
         SessionEvent.recv (.obj (some "chat") ⟨none, none, none, none, true⟩) none])
      = ⟨[Output.initOut []], EndState.running⟩ ∧
    (websocket_endpoint 0 (some [])
        [SessionEvent.recv .nonObject none,
         SessionEvent.recv
          (.obj (some "stroke") ⟨some [[0, 0]], none, none, none, true⟩) (some "x")])
      = ⟨[Output.initOut []], EndState.crashed⟩ := by
  exact ⟨by decide, by decide⟩

/-- C9 (code bug): with registry `[0, 1, 2]` and no excluded sender, if
another task disconnects session `0` while the send to it (cursor index
`0`) is suspended, the live-list index iteration resumes at index `1` of
the shrunk list `[1, 2]` and visits only `[0, 2]`: session `1` is still a
registry member when the loop ends but was never sent the message — a
live session is skipped within one broadcast call. -/
theorem live_iteration_skips_session :
    (liveIter (fun i => if i = 0 then some 0 else none) 4 0 [0, 1, 2]).1
      = [0, 2] ∧
    (1 : Session) ∉
      (liveIter (fun i => if i = 0 then some 0 else none) 4 0 [0, 1, 2]).1 ∧
    (1 : Session) ∈
      (liveIter (fun i => if i = 0 then some 0 else none) 4 0 [0, 1, 2]).2 := by
  exact ⟨by decide, by decide, by decide⟩
